import Mathlib

/-!
# Verification of the eshop-ddd order-fulfillment core

A shallow embedding of the order-fulfillment subsystem of the `eshop-ddd`
repository (Money/Address value objects, the Order aggregate and its state
machine, the OrderPricingService, the Inventory value object and
InventoryService, and the CreateOrderCommand saga), together with theorems
settling the specification claims about it.

Modelling conventions:
* JavaScript numbers are modelled as exact rationals (`ℚ`); `Math.round x`
  becomes `⌊x + 1/2⌋` (JS rounds half toward +∞).  The one claim that is
  specifically about binary64 floating point is treated separately at the end
  of the file with an explicit IEEE-754 rounding model.
* `throw new Error(msg)` becomes `Except String` (or a structured error type
  when the TS message interpolates runtime numbers into the string).
* In-place mutation of an aggregate becomes explicit state passing.  For the
  Order lifecycle methods, which the claims require to leave the aggregate
  untouched when they throw, a method returns `Option String × OrderProps`:
  the error (if any) together with the state of the aggregate afterwards, so
  that a partial mutation before a throw would be observable.
* Dates (`new Date()`) and generated order numbers are nondeterministic in the
  source; they are passed in as explicit parameters.
-/

deriving instance DecidableEq for Except

namespace Eshop

/-- JS `Math.round`: round half toward positive infinity. -/
def jsRound (q : ℚ) : ℤ := ⌊q + 1/2⌋

/-- `Currency` enum from `order/domain/value-objects/Money.ts`. -/
inductive Currency
  | CNY
  | USD
  | EUR
deriving DecidableEq, Repr

/-- The `Money` value object: an amount plus a currency tag.  The TS props are
exactly these two fields. -/
structure Money where
  amount : ℚ
  currency : Currency
deriving DecidableEq, Repr

namespace Money

/-- `Money.validate` from `Money.ts`: rejects negative amounts and amounts with
more than two decimal places.  The TS decimal check inspects
`amount.toString()`; for an exact rational the condition "at most two decimal
digits" is `(amount * 100)` being an integer (a denominator with other prime
factors prints as an infinite decimal and is rejected likewise).  The
`Number.isFinite` check cannot fail for a rational, and the currency check
cannot fail for the `Currency` enum. -/
def validate (m : Money) : Except String Unit :=
  if m.amount < 0 then .error "金额不能为负数"
  else if (m.amount * 100).den ≠ 1 then .error "金额精度最多2位小数"
  else .ok ()

/-- The validating constructor `new Money(amount, currency)`. -/
def make (amount : ℚ) (currency : Currency) : Except String Money := do
  let m : Money := ⟨amount, currency⟩
  validate m
  .ok m

/-- `Money.equals`: compares amount and currency. -/
def equals (a b : Money) : Bool :=
  decide (a.amount = b.amount) && decide (a.currency = b.currency)

/-- `Money.add`. -/
def add (a b : Money) : Except String Money :=
  if a.currency ≠ b.currency then .error "不能对不同货币进行运算"
  else make (a.amount + b.amount) a.currency

/-- `Money.subtract`: also rejects negative results. -/
def subtract (a b : Money) : Except String Money :=
  if a.currency ≠ b.currency then .error "不能对不同货币进行运算"
  else if a.amount - b.amount < 0 then .error "减法结果不能为负数"
  else make (a.amount - b.amount) a.currency

/-- `Money.multiply`: rounds the product to two decimals
(`Math.round(amount * factor * 100) / 100`). -/
def multiply (a : Money) (factor : ℚ) : Except String Money :=
  if factor < 0 then .error "乘数不能为负数"
  else make ((jsRound (a.amount * factor * 100) : ℚ) / 100) a.currency

/-- `Money.divide`: rounds the quotient to two decimals. -/
def divide (a : Money) (divisor : ℚ) : Except String Money :=
  if divisor ≤ 0 then .error "除数必须大于0"
  else make ((jsRound (a.amount / divisor * 100) : ℚ) / 100) a.currency

/-- `Money.isGreaterThan`: throws on a currency mismatch. -/
def isGreaterThan (a b : Money) : Except String Bool :=
  if a.currency ≠ b.currency then .error "不能比较不同货币"
  else .ok (decide (b.amount < a.amount))

/-- `Money.isLessThan`: throws on a currency mismatch. -/
def isLessThan (a b : Money) : Except String Bool :=
  if a.currency ≠ b.currency then .error "不能比较不同货币"
  else .ok (decide (a.amount < b.amount))

/-- `Money.isZero`. -/
def isZero (a : Money) : Bool := decide (a.amount = 0)

/-- `Money.zero(currency)`. -/
def zero (c : Currency) : Money := ⟨0, c⟩

theorem equals_iff (a b : Money) : a.equals b = true ↔ a = b := by
  cases a; cases b
  simp [equals]

end Money

/-- The `OrderItem` entity (`order/domain/entities/OrderItem.ts`).  The
product snapshot carries no behaviour used by any claim and is omitted; the
entity id is only an identity tag. -/
structure OrderItem where
  productId : String
  productName : String
  sku : String
  quantity : ℚ
  unitPrice : Money
  totalPrice : Money
  discountAmount : Money
deriving DecidableEq, Repr

namespace OrderItem

/-- `OrderItem.validate`. -/
def validate (it : OrderItem) : Except String Unit := do
  if it.productId = "" then
    throw "商品ID不能为空"
  if it.productName.trim = "" then
    throw "商品名称不能为空"
  if it.sku.trim = "" then
    throw "商品SKU不能为空"
  if it.quantity ≤ 0 then
    throw "商品数量必须大于0"
  if it.quantity.den ≠ 1 then
    throw "商品数量必须是整数"
  -- 验证总价 = 单价 * 数量 - 折扣
  let sub ← it.unitPrice.multiply it.quantity
  let expectedTotal ← sub.subtract it.discountAmount
  if it.totalPrice.equals expectedTotal = false then
    throw "订单项总价计算错误"

/-- `OrderItem.create`: computes `totalPrice = unitPrice * quantity - discount`
and validates. -/
def create (productId productName sku : String) (quantity : ℚ)
    (unitPrice : Money) (discountAmount : Money) : Except String OrderItem := do
  let sub ← unitPrice.multiply quantity
  let totalPrice ← sub.subtract discountAmount
  let it : OrderItem :=
    ⟨productId, productName.trim, sku.trim, quantity, unitPrice, totalPrice, discountAmount⟩
  validate it
  .ok it

end OrderItem

/-- The `Address` value object (structured postal fields).  Its own format
validation is not exercised by any claim; the pricing engine reads only
`province`. -/
structure Address where
  country : String
  province : String
  city : String
  district : String
  street : String
  zipCode : String
  contactName : String
  contactPhone : String
deriving DecidableEq, Repr

/-- `OrderStatus` from `order/domain/enums.ts`. -/
inductive OrderStatus
  | PENDING
  | PAID
  | PROCESSING
  | SHIPPED
  | DELIVERED
  | CANCELLED
  | REFUNDED
  | COMPLETED
deriving DecidableEq, Repr

/-- `PaymentStatus` from `order/domain/enums.ts`. -/
inductive PaymentStatus
  | PENDING
  | PROCESSING
  | COMPLETED
  | FAILED
  | CANCELLED
  | REFUNDED
deriving DecidableEq, Repr

/-- `ShippingStatus` from `order/domain/enums.ts`. -/
inductive ShippingStatus
  | PENDING
  | PREPARING
  | SHIPPED
  | IN_TRANSIT
  | DELIVERED
  | EXCEPTION
deriving DecidableEq, Repr

/-- `PaymentMethod` from `order/domain/enums.ts`. -/
inductive PaymentMethod
  | ALIPAY
  | WECHAT_PAY
  | BANK_CARD
  | CREDIT_CARD
  | CASH_ON_DELIVERY
deriving DecidableEq, Repr

/-- `OrderProps` from `order/domain/aggregates/Order.ts`.  Dates are abstract
ticks (`ℕ`); the order number is kept as the generated string; the metadata
record and the uncommitted-event list carry no behaviour used by a claim and
are omitted. -/
structure OrderProps where
  orderNumber : String
  customerId : String
  items : List OrderItem
  shippingAddress : Address
  billingAddress : Address
  subtotal : Money
  discountAmount : Money
  shippingFee : Money
  taxAmount : Money
  totalAmount : Money
  paymentMethod : PaymentMethod
  status : OrderStatus
  paymentStatus : PaymentStatus
  shippingStatus : ShippingStatus
  orderDate : ℕ
  paidAt : Option ℕ
  shippedAt : Option ℕ
  deliveredAt : Option ℕ
  notes : Option String
deriving DecidableEq, Repr

namespace Order

/-- `Order.calculateSubtotalFromItems`: folds `Money.add` over the items'
total prices, starting from zero in the first item's unit-price currency. -/
def calculateSubtotalFromItems (items : List OrderItem) : Except String Money :=
  match items with
  | [] => .error "订单项不能为空"
  | first :: _ =>
    items.foldlM (fun subtotal it => subtotal.add it.totalPrice)
      (Money.zero first.unitPrice.currency)

/-- The pricing-formula recomputation inside `Order.validate`:
`subtotal.subtract(discount).add(shippingFee).add(taxAmount)`. -/
def calculatedTotal (p : OrderProps) : Except String Money := do
  let afterDiscount ← p.subtotal.subtract p.discountAmount
  let withShipping ← afterDiscount.add p.shippingFee
  withShipping.add p.taxAmount

/-- `Order.validate`, run by the private constructor on every construction
(`create` and `reconstitute`).  A thrown error propagates, so each guard is an
explicit early exit. -/
def validate (p : OrderProps) : Except String Unit :=
  if p.customerId = "" then .error "客户ID不能为空"
  else if p.items.isEmpty then .error "订单必须包含至少一个商品"
  else
    -- 验证金额计算
    match calculateSubtotalFromItems p.items with
    | .error e => .error e
    | .ok calculatedSubtotal =>
      if p.subtotal.equals calculatedSubtotal = false then .error "订单小计计算错误"
      else
        match calculatedTotal p with
        | .error e => .error e
        | .ok total =>
          if p.totalAmount.equals total = false then .error "订单总金额计算错误"
          -- 状态一致性验证
          else if p.status = OrderStatus.PAID ∧ p.paymentStatus ≠ PaymentStatus.COMPLETED then
            .error "订单状态与支付状态不一致"
          else if p.status = OrderStatus.SHIPPED ∧ p.shippingStatus ≠ ShippingStatus.SHIPPED then
            .error "订单状态与发货状态不一致"
          else .ok ()

/-- The private `Order` constructor: validate, then hold the props. -/
def construct (p : OrderProps) : Except String OrderProps := do
  validate p
  .ok p

/-- `Order.reconstitute(props, id)`. -/
def reconstitute (p : OrderProps) : Except String OrderProps := construct p

/-- `Order.create`: recomputes the subtotal from the items and the total from
the pricing formula, then constructs (and hence validates).  The generated
order number and `new Date()` are passed in explicitly. -/
def create (customerId : String) (items : List OrderItem)
    (shippingAddress billingAddress : Address) (paymentMethod : PaymentMethod)
    (shippingFee taxAmount discountAmount : Money) (notes : Option String)
    (orderNumber : String) (now : ℕ) : Except String OrderProps :=
  if items.isEmpty then .error "订单必须包含至少一个商品"
  else do
  -- 计算订单金额
  let subtotal ← calculateSubtotalFromItems items
  let afterDiscount ← subtotal.subtract discountAmount
  let withShipping ← afterDiscount.add shippingFee
  let totalAmount ← withShipping.add taxAmount
  construct
    { orderNumber := orderNumber
      customerId := customerId
      items := items
      shippingAddress := shippingAddress
      billingAddress := billingAddress
      subtotal := subtotal
      discountAmount := discountAmount
      shippingFee := shippingFee
      taxAmount := taxAmount
      totalAmount := totalAmount
      paymentMethod := paymentMethod
      status := OrderStatus.PENDING
      paymentStatus := PaymentStatus.PENDING
      shippingStatus := ShippingStatus.PENDING
      orderDate := now
      paidAt := none
      shippedAt := none
      deliveredAt := none
      notes := notes }

/-!
Lifecycle methods.  Each one returns the error raised (if any) together with
the state of the aggregate afterwards, mirroring the TS methods, whose guard
throws all happen before any assignment to `this.props`.  Event publication
(`addDomainEvent`) carries no claim-relevant state and is dropped; `paymentId`,
`shipmentId`, tracking data and the cancel reason only feed those events.
-/

/-- `Order.pay(paymentId)`. -/
def pay (_paymentId : String) (now : ℕ) (o : OrderProps) :
    Option String × OrderProps :=
  if o.status ≠ OrderStatus.PENDING then
    (some "只有待支付订单才能进行支付", o)
  else if o.paymentStatus ≠ PaymentStatus.PENDING then
    (some "订单支付状态异常", o)
  else
    (none, { o with status := OrderStatus.PAID,
                    paymentStatus := PaymentStatus.COMPLETED,
                    paidAt := some now })

/-- `Order.startProcessing()`. -/
def startProcessing (o : OrderProps) : Option String × OrderProps :=
  if o.status ≠ OrderStatus.PAID then
    (some "只有已支付订单才能开始处理", o)
  else
    (none, { o with status := OrderStatus.PROCESSING,
                    shippingStatus := ShippingStatus.PREPARING })

/-- `Order.ship(shipmentId, trackingNumber, carrier)`. -/
def ship (_shipmentId _trackingNumber _carrier : String) (now : ℕ)
    (o : OrderProps) : Option String × OrderProps :=
  if o.status ≠ OrderStatus.PROCESSING then
    (some "只有处理中的订单才能发货", o)
  else
    (none, { o with status := OrderStatus.SHIPPED,
                    shippingStatus := ShippingStatus.SHIPPED,
                    shippedAt := some now })

/-- `Order.deliver()`. -/
def deliver (now : ℕ) (o : OrderProps) : Option String × OrderProps :=
  if o.status ≠ OrderStatus.SHIPPED then
    (some "只有已发货订单才能确认送达", o)
  else
    (none, { o with status := OrderStatus.DELIVERED,
                    shippingStatus := ShippingStatus.DELIVERED,
                    deliveredAt := some now })

/-- `Order.complete()`. -/
def complete (o : OrderProps) : Option String × OrderProps :=
  if o.status ≠ OrderStatus.DELIVERED then
    (some "只有已送达订单才能完成", o)
  else
    (none, { o with status := OrderStatus.COMPLETED })

/-- `Order.cancel(reason)`. -/
def cancel (_reason : String) (_now : ℕ) (o : OrderProps) :
    Option String × OrderProps :=
  -- 已发货的订单不能取消
  if o.status = OrderStatus.SHIPPED ∨ o.status = OrderStatus.DELIVERED ∨
      o.status = OrderStatus.COMPLETED then
    (some "已发货的订单不能取消", o)
  else
    -- 如果已支付，需要退款
    let o1 :=
      if o.status = OrderStatus.PAID ∨ o.status = OrderStatus.PROCESSING then
        { o with paymentStatus := PaymentStatus.REFUNDED }
      else o
    (none, { o1 with status := OrderStatus.CANCELLED })

/-- `Order.refund()`. -/
def refund (o : OrderProps) : Option String × OrderProps :=
  if o.paymentStatus ≠ PaymentStatus.COMPLETED then
    (some "只有已完成支付的订单才能退款", o)
  else
    (none, { o with status := OrderStatus.REFUNDED,
                    paymentStatus := PaymentStatus.REFUNDED })

end Order

/-- `OrderPricing` interface from `OrderPricingService.ts`. -/
structure OrderPricing where
  subtotal : Money
  discountAmount : Money
  shippingFee : Money
  taxAmount : Money
  totalAmount : Money
deriving DecidableEq, Repr

/-- Discount rule kinds from `OrderPricingService.ts`. -/
inductive DiscountType
  | PERCENTAGE
  | FIXED_AMOUNT
  | FREE_SHIPPING
deriving DecidableEq, Repr

/-- `DiscountRule` (the `applicableCategories` field is never read). -/
structure DiscountRule where
  type : DiscountType
  value : ℚ
  minOrderAmount : Option Money
  maxDiscountAmount : Option Money
deriving DecidableEq, Repr

/-- `ShippingRule`. -/
structure ShippingRule where
  region : String
  baseRate : Money
  freeShippingThreshold : Option Money
  weightMultiplier : Option ℚ
deriving DecidableEq, Repr

/-- `TaxRule` (the `taxableCategories` field only selects between two
identical branches in `calculateTax`). -/
structure TaxRule where
  region : String
  rate : ℚ
deriving DecidableEq, Repr

namespace OrderPricingService

/-- `calculateSubtotal` (identical to `Order.calculateSubtotalFromItems`). -/
def calculateSubtotal (items : List OrderItem) : Except String Money :=
  match items with
  | [] => .error "订单项不能为空"
  | first :: _ =>
    items.foldlM (fun subtotal it => subtotal.add it.totalPrice)
      (Money.zero first.unitPrice.currency)

/-- `getDiscountRuleByCoupon`: the static mock coupon table. -/
def getDiscountRuleByCoupon (couponCode : String) : Option DiscountRule :=
  if couponCode = "SAVE10" then
    some ⟨DiscountType.PERCENTAGE, 10, some ⟨100, Currency.CNY⟩, some ⟨50, Currency.CNY⟩⟩
  else if couponCode = "WELCOME20" then
    some ⟨DiscountType.FIXED_AMOUNT, 20, some ⟨200, Currency.CNY⟩, none⟩
  else if couponCode = "FREESHIP" then
    some ⟨DiscountType.FREE_SHIPPING, 0, some ⟨150, Currency.CNY⟩, none⟩
  else none

/-- `applyDiscountRule`. -/
def applyDiscountRule (_items : List OrderItem) (subtotal : Money)
    (rule : DiscountRule) : Except String Money := do
  -- 检查最小订单金额
  if let some minAmount := rule.minOrderAmount then
    if ← subtotal.isLessThan minAmount then
      return Money.zero subtotal.currency
  let discountAmount ←
    match rule.type with
    | DiscountType.PERCENTAGE => subtotal.multiply (rule.value / 100)
    | DiscountType.FIXED_AMOUNT => Money.make rule.value subtotal.currency
    | DiscountType.FREE_SHIPPING =>
      -- 免运费折扣在运费计算中处理
      return Money.zero subtotal.currency
  -- 应用最大折扣限制
  let discountAmount ←
    match rule.maxDiscountAmount with
    | some maxAmount => do
      if ← discountAmount.isGreaterThan maxAmount then pure maxAmount
      else pure discountAmount
    | none => pure discountAmount
  -- 折扣不能超过订单金额
  if ← discountAmount.isGreaterThan subtotal then
    return subtotal
  return discountAmount

/-- `calculateDiscount`. -/
def calculateDiscount (items : List OrderItem) (subtotal : Money)
    (couponCode : Option String) : Except String Money :=
  match couponCode with
  | none => .ok (Money.zero subtotal.currency)
  | some code =>
    match getDiscountRuleByCoupon code with
    | none => .ok (Money.zero subtotal.currency)
    | some rule => applyDiscountRule items subtotal rule

/-- `getShippingRuleByAddress`: region resolution by province. -/
def getShippingRuleByAddress (address : Address) : Option ShippingRule :=
  if address.province = "北京" ∨ address.province = "上海" ∨
      address.province = "广州" ∨ address.province = "深圳" then
    some ⟨"一线城市", ⟨8, Currency.CNY⟩, some ⟨199, Currency.CNY⟩, none⟩
  else
    some ⟨"其他地区", ⟨12, Currency.CNY⟩, some ⟨299, Currency.CNY⟩, some 2⟩

/-- `calculateTotalWeight`: 1 weight unit per item quantity. -/
def calculateTotalWeight (items : List OrderItem) : ℚ :=
  items.foldl (fun total it => total + it.quantity) 0

/-- `calculateShippingFee`.  The truthiness test `if (shippingRule.weightMultiplier)`
is false both for an absent multiplier and for a zero one. -/
def calculateShippingFee (items : List OrderItem) (shippingAddress : Address)
    (subtotal discountAmount : Money) : Except String Money :=
  match getShippingRuleByAddress shippingAddress with
  | none =>
    -- 默认运费
    Money.make 10 subtotal.currency
  | some shippingRule =>
    -- 检查是否满足免运费条件
    match subtotal.subtract discountAmount with
    | .error e => .error e
    | .ok orderAmountAfterDiscount =>
      match (match shippingRule.freeShippingThreshold with
             | some threshold => orderAmountAfterDiscount.isGreaterThan threshold
             | none => .ok false) with
      | .error e => .error e
      | .ok free =>
        if free then .ok (Money.zero subtotal.currency)
        else
          -- 计算基础运费，如果有重量系数则加上重量费用
          match shippingRule.weightMultiplier with
          | some weightMultiplier =>
            if weightMultiplier = 0 then .ok shippingRule.baseRate
            else
              match Money.make (calculateTotalWeight items * weightMultiplier)
                  subtotal.currency with
              | .error e => .error e
              | .ok weightCharge => shippingRule.baseRate.add weightCharge
          | none => .ok shippingRule.baseRate

/-- `getTaxRuleByAddress`: always `null` in the source. -/
def getTaxRuleByAddress (_address : Address) : Option TaxRule := none

/-- `calculateTax`. -/
def calculateTax (_items : List OrderItem) (shippingAddress : Address)
    (subtotal discountAmount : Money) : Except String Money := do
  match getTaxRuleByAddress shippingAddress with
  | none => .ok (Money.zero subtotal.currency)
  | some taxRule => do
    -- 计算应税金额（小计 - 折扣）；两个分类分支计算相同的表达式
    let taxableAmount ← subtotal.subtract discountAmount
    taxableAmount.multiply taxRule.rate

/-- `calculateOrderPricing`: the full pricing pipeline.  The `currency`
parameter is accepted (with default CNY at call sites) but never read in the
body, as in the source. -/
def calculateOrderPricing (items : List OrderItem) (shippingAddress : Address)
    (couponCode : Option String) (_currency : Currency) :
    Except String OrderPricing := do
  if items.isEmpty then
    throw "订单项不能为空"
  let subtotal ← calculateSubtotal items
  let discountAmount ← calculateDiscount items subtotal couponCode
  let shippingFee ← calculateShippingFee items shippingAddress subtotal discountAmount
  let taxAmount ← calculateTax items shippingAddress subtotal discountAmount
  let afterDiscount ← subtotal.subtract discountAmount
  let withShipping ← afterDiscount.add shippingFee
  let totalAmount ← withShipping.add taxAmount
  .ok ⟨subtotal, discountAmount, shippingFee, taxAmount, totalAmount⟩

/-- The discrepancy items pushed by `validateOrderPricing`.  The TS strings
interpolate the offending amounts; the constructors carry them instead. -/
inductive PricingDiscrepancy
  | subtotalMismatch (expected actual : ℚ)
  | totalMismatch (expected actual : ℚ)
  | discountExceedsSubtotal
  | negativeSubtotal
  | negativeDiscount
  | negativeShippingFee
  | negativeTax
deriving DecidableEq, Repr

/-- Result record of `validateOrderPricing`. -/
structure PricingValidation where
  isValid : Bool
  errors : List PricingDiscrepancy
deriving DecidableEq, Repr

/-- The total recomputation inside `validateOrderPricing`:
`pricing.subtotal.subtract(discount).add(shippingFee).add(tax)` — built from
the supplied components (note: not from the items). -/
def calculatedTotalOf (pricing : OrderPricing) : Except String Money := do
  let afterDiscount ← pricing.subtotal.subtract pricing.discountAmount
  let withShipping ← afterDiscount.add pricing.shippingFee
  withShipping.add pricing.taxAmount

/-- `validateOrderPricing`: recomputes the subtotal from the items and the
total from the supplied components, compares each with `Money.equals` (exact
equality), checks `discount ≤ subtotal` and non-negativity of the four
components, and returns the collected discrepancies. -/
def validateOrderPricing (items : List OrderItem) (pricing : OrderPricing) :
    Except String PricingValidation :=
  -- 验证小计计算
  match calculateSubtotal items with
  | .error e => .error e
  | .ok calculatedSubtotal =>
    let errs0 : List PricingDiscrepancy :=
      if pricing.subtotal.equals calculatedSubtotal then []
      else [PricingDiscrepancy.subtotalMismatch calculatedSubtotal.amount pricing.subtotal.amount]
    -- 验证总金额计算
    match calculatedTotalOf pricing with
    | .error e => .error e
    | .ok total =>
      let errs1 := errs0 ++
        (if pricing.totalAmount.equals total then []
         else [PricingDiscrepancy.totalMismatch total.amount pricing.totalAmount.amount])
      -- 验证折扣金额不能超过小计
      match pricing.discountAmount.isGreaterThan pricing.subtotal with
      | .error e => .error e
      | .ok discountTooBig =>
        let errs2 := errs1 ++
          (if discountTooBig then [PricingDiscrepancy.discountExceedsSubtotal] else [])
        -- 验证所有金额都是非负数
        let errs3 := errs2 ++
          (if pricing.subtotal.amount < 0 then [PricingDiscrepancy.negativeSubtotal] else [])
        let errs4 := errs3 ++
          (if pricing.discountAmount.amount < 0 then [PricingDiscrepancy.negativeDiscount] else [])
        let errs5 := errs4 ++
          (if pricing.shippingFee.amount < 0 then [PricingDiscrepancy.negativeShippingFee] else [])
        let errs6 := errs5 ++
          (if pricing.taxAmount.amount < 0 then [PricingDiscrepancy.negativeTax] else [])
        .ok ⟨errs6.isEmpty, errs6⟩

/-- Result record of `calculateOptimalPricing`. -/
structure OptimalPricing where
  bestCoupon : Option String
  pricing : OrderPricing
  savings : Money
deriving DecidableEq, Repr

/-- `calculateOptimalPricing`: starts from the no-coupon pricing and folds over
the candidate coupons, updating the running best whenever a candidate's
savings measured against the current `bestPricing` exceed `maxSavings`. -/
def calculateOptimalPricing (items : List OrderItem) (shippingAddress : Address)
    (availableCoupons : List String) : Except String OptimalPricing := do
  let bestPricing0 ← calculateOrderPricing items shippingAddress none Currency.CNY
  let st ← availableCoupons.foldlM
    (fun (st : OrderPricing × Option String × Money) coupon => do
      let (bestPricing, bestCoupon, maxSavings) := st
      -- 尝试所有可用的优惠券
      let pricingWithCoupon ← calculateOrderPricing items shippingAddress (some coupon) Currency.CNY
      let savings ← bestPricing.totalAmount.subtract pricingWithCoupon.totalAmount
      if ← savings.isGreaterThan maxSavings then
        pure (pricingWithCoupon, some coupon, savings)
      else
        pure (bestPricing, bestCoupon, maxSavings))
    (bestPricing0, none, Money.zero bestPricing0.totalAmount.currency)
  .ok ⟨st.2.1, st.1, st.2.2⟩

end OrderPricingService

/-- The `Inventory` value object (`product/domain/value-objects/Inventory.ts`).
Counts are JS numbers used only with `+`, `-` and comparisons; they are
modelled as integers. -/
structure Inventory where
  quantity : ℤ
  reservedQuantity : ℤ
  minStockLevel : ℤ
deriving DecidableEq, Repr

namespace Inventory

/-- `Inventory.validate`. -/
def validate (i : Inventory) : Except String Unit := do
  if i.quantity < 0 then
    throw "库存数量不能为负数"
  if i.reservedQuantity < 0 then
    throw "预留库存不能为负数"
  if i.minStockLevel < 0 then
    throw "最小库存级别不能为负数"
  if i.reservedQuantity > i.quantity then
    throw "预留库存不能超过总库存"

/-- The validating constructor `new Inventory(quantity, reserved, minStock)`. -/
def make (quantity reservedQuantity minStockLevel : ℤ) : Except String Inventory := do
  let i : Inventory := ⟨quantity, reservedQuantity, minStockLevel⟩
  validate i
  .ok i

/-- `getAvailableQuantity`. -/
def getAvailableQuantity (i : Inventory) : ℤ := i.quantity - i.reservedQuantity

/-- `isInStock`. -/
def isInStock (i : Inventory) : Bool := decide (0 < i.getAvailableQuantity)

/-- `canReserve`. -/
def canReserve (i : Inventory) (quantity : ℤ) : Bool :=
  decide (quantity ≤ i.getAvailableQuantity)

/-- `Inventory.reserve`: returns a new Inventory via the validating
constructor. -/
def reserve (i : Inventory) (quantity : ℤ) : Except String Inventory := do
  if quantity ≤ 0 then
    throw "预留数量必须大于0"
  if i.canReserve quantity = false then
    throw "库存不足，无法预留"
  make i.quantity (i.reservedQuantity + quantity) i.minStockLevel

/-- `Inventory.releaseReservation`. -/
def releaseReservation (i : Inventory) (quantity : ℤ) : Except String Inventory := do
  if quantity ≤ 0 then
    throw "释放数量必须大于0"
  if quantity > i.reservedQuantity then
    throw "释放数量不能超过预留数量"
  make i.quantity (i.reservedQuantity - quantity) i.minStockLevel

/-- `Inventory.deduct`: removes from both total and reserved stock. -/
def deduct (i : Inventory) (quantity : ℤ) : Except String Inventory := do
  if quantity ≤ 0 then
    throw "扣减数量必须大于0"
  if quantity > i.reservedQuantity then
    throw "扣减数量不能超过预留数量"
  make (i.quantity - quantity) (i.reservedQuantity - quantity) i.minStockLevel

/-- `Inventory.addStock`. -/
def addStock (i : Inventory) (quantity : ℤ) : Except String Inventory := do
  if quantity ≤ 0 then
    throw "增加库存数量必须大于0"
  make (i.quantity + quantity) i.reservedQuantity i.minStockLevel

end Inventory

/-- `ProductStatus` string enum from `product/domain/enums.ts`.  Note the
runtime values are lowercase strings. -/
inductive ProductStatus
  | DRAFT
  | ACTIVE
  | INACTIVE
  | OUT_OF_STOCK
  | DISCONTINUED
deriving DecidableEq, Repr

/-- The runtime string value of each `ProductStatus` member, exactly as
declared in the TS string enum. -/
def ProductStatus.toStr : ProductStatus → String
  | .DRAFT => "draft"
  | .ACTIVE => "active"
  | .INACTIVE => "inactive"
  | .OUT_OF_STOCK => "out_of_stock"
  | .DISCONTINUED => "discontinued"

/-- The slice of the `Product` aggregate used by the inventory coordinator and
the saga: identity, display data read for order items, inventory and status. -/
structure Product where
  id : String
  name : String
  sku : String
  price : Money
  inventory : Inventory
  status : ProductStatus
deriving DecidableEq, Repr

namespace Product

/-- `Product.updateStatus`: no-op on an unchanged status, rejects activating a
product with no available stock. -/
def updateStatus (status : ProductStatus) (p : Product) : Except String Product :=
  if p.status = status then .ok p
  else if status = ProductStatus.ACTIVE ∧ p.inventory.isInStock = false then
    .error "没有库存的商品不能激活"
  else .ok { p with status := status }

/-- `Product.markAsOutOfStock`. -/
def markAsOutOfStock (p : Product) : Except String Product :=
  updateStatus ProductStatus.OUT_OF_STOCK p

/-- `Product.activate`. -/
def activate (p : Product) : Except String Product :=
  updateStatus ProductStatus.ACTIVE p

/-- `Product.reserveInventory` (the enum comparison here is the correct one,
unlike the string comparison in `InventoryService`). -/
def reserveInventory (quantity : ℤ) (p : Product) : Except String Product := do
  if p.status ≠ ProductStatus.ACTIVE then
    throw "只有激活状态的商品才能预留库存"
  let inv ← p.inventory.reserve quantity
  let p1 := { p with inventory := inv }
  -- 如果库存变为0，自动标记为缺货
  if p1.inventory.isInStock = false then p1.markAsOutOfStock else .ok p1

/-- `Product.releaseInventory`. -/
def releaseInventory (quantity : ℤ) (p : Product) : Except String Product := do
  let inv ← p.inventory.releaseReservation quantity
  let p1 := { p with inventory := inv }
  if p1.status = ProductStatus.OUT_OF_STOCK ∧ p1.inventory.isInStock then
    p1.activate
  else .ok p1

/-- `Product.deductInventory`. -/
def deductInventory (quantity : ℤ) (p : Product) : Except String Product := do
  let inv ← p.inventory.deduct quantity
  let p1 := { p with inventory := inv }
  if p1.inventory.isInStock = false then p1.markAsOutOfStock else .ok p1

end Product

/-- The product repository, deterministically modelled as an association list
keyed by product id (`findById` / `save`). -/
abbrev ProductRepo := List (String × Product)

/-- `productRepository.findById`. -/
def repoFindById (repo : ProductRepo) (productId : String) : Option Product :=
  match List.find? (fun e => e.1 = productId) repo with
  | some e => some e.2
  | none => none

/-- `productRepository.save`: replaces the stored aggregate with the same id
(inserting it when absent). -/
def repoSave (repo : ProductRepo) (p : Product) : ProductRepo :=
  match repo with
  | [] => [(p.id, p)]
  | e :: rest => if e.1 = p.id then (p.id, p) :: rest else e :: repoSave rest p

namespace InventoryService

/-- `InventoryReservationItem`. -/
structure InventoryReservationItem where
  productId : String
  productName : String
  requestedQuantity : ℤ
deriving DecidableEq, Repr

/-- The per-item failure reasons recorded by `validateInventoryAvailability`.
The TS stock-shortage string interpolates the two quantities; the constructor
carries them. -/
inductive InvalidReason
  | notFound
  | offShelf
  | insufficientStock (available requested : ℤ)
deriving DecidableEq, Repr

/-- An entry of `invalidItems`. -/
structure InvalidItem where
  productId : String
  productName : String
  requestedQuantity : ℤ
  availableQuantity : ℤ
  reason : InvalidReason
deriving DecidableEq, Repr

/-- `InventoryValidationResult`. -/
structure InventoryValidationResult where
  isValid : Bool
  invalidItems : List InvalidItem
deriving DecidableEq, Repr

/-- `validateInventoryAvailability`: a pure read over the repository.  The
status guard is embedded exactly as written in the source –
`product.getStatus() !== 'ACTIVE'` compares the runtime string value of the
status enum (which is lowercase, e.g. `"active"`) with the uppercase literal
`'ACTIVE'`. -/
def validateInventoryAvailability (repo : ProductRepo)
    (items : List InventoryReservationItem) : InventoryValidationResult :=
  let invalidItems := items.foldl
    (fun acc item =>
      match repoFindById repo item.productId with
      | none =>
        acc ++ [⟨item.productId, item.productName, item.requestedQuantity, 0,
                 InvalidReason.notFound⟩]
      | some product =>
        -- 验证商品状态
        if product.status.toStr ≠ "ACTIVE" then
          acc ++ [⟨item.productId, item.productName, item.requestedQuantity, 0,
                   InvalidReason.offShelf⟩]
        else
          -- 验证库存
          let availableStock := product.inventory.getAvailableQuantity
          if availableStock < item.requestedQuantity then
            acc ++ [⟨item.productId, item.productName, item.requestedQuantity,
                     availableStock,
                     InvalidReason.insufficientStock availableStock item.requestedQuantity⟩]
          else acc)
    []
  ⟨invalidItems.isEmpty, invalidItems⟩

/-- Errors raised by `reserveInventoryBatch`.  `validationFailed` is the
aggregated error `库存验证失败：…`, whose message lists, per failing item,
`productName: reason`. -/
inductive InventoryError
  | validationFailed (failures : List (String × InvalidReason))
  | productMissing (productName : String)
  | reservationFailed (msg : String)
deriving DecidableEq, Repr

/-- The product-reload loop of `reserveInventoryBatch`. -/
def loadProducts (repo : ProductRepo) (items : List InventoryReservationItem) :
    Except InventoryError (List Product) :=
  items.foldlM
    (fun acc item =>
      match repoFindById repo item.productId with
      | none => .error (InventoryError.productMissing item.productName)
      | some product => .ok (acc ++ [product]))
    []

/-- The in-memory reservation loop (`products[i].reserveInventory(items[i])`). -/
def reserveAll (pairs : List (Product × InventoryReservationItem)) :
    Except String (List Product) :=
  pairs.foldlM
    (fun acc pair => do
      let p ← pair.1.reserveInventory pair.2.requestedQuantity
      .ok (acc ++ [p]))
    []

/-- `reserveInventoryBatch`: validates the whole batch first and raises the
aggregated error without touching the repository when any item is flagged;
otherwise reloads the products, reserves in memory, and persists them one by
one.  Returns the result together with the repository state afterwards. -/
def reserveInventoryBatch (repo : ProductRepo)
    (items : List InventoryReservationItem) :
    Except InventoryError (List Product) × ProductRepo :=
  -- 首先验证所有商品的库存
  let validationResult := validateInventoryAvailability repo items
  if validationResult.isValid = false then
    (.error (InventoryError.validationFailed
        (validationResult.invalidItems.map fun it => (it.productName, it.reason))), repo)
  else
    match loadProducts repo items with
    | .error e => (.error e, repo)
    | .ok products =>
      -- 执行库存预留（先在内存中全部预留，再批量保存）
      match reserveAll (products.zip items) with
      | .error msg => (.error (InventoryError.reservationFailed msg), repo)
      | .ok reserved => (.ok reserved, reserved.foldl repoSave repo)

/-- `releaseReservedInventoryBatch`: best-effort, a missing product is
silently skipped; each surviving product is released and saved.  (A failure
inside `releaseInventory` would propagate in the source; the claims only rely
on this function being invoked, so the same holds here.) -/
def releaseReservedInventoryBatch (repo : ProductRepo)
    (items : List (String × ℤ)) : Except String Unit × ProductRepo :=
  items.foldl
    (fun st item =>
      match st with
      | (.error e, r) => (.error e, r)
      | (.ok (), r) =>
        match repoFindById r item.1 with
        | none => (.ok (), r)
        | some product =>
          match product.releaseInventory item.2 with
          | .error e => (.error e, r)
          | .ok p1 => (.ok (), repoSave r p1))
    (.ok (), repo)

end InventoryService

namespace CreateOrderCommand

/-- The cart surface the orchestrator reads. -/
structure CartModel where
  isEmptyCart : Bool
deriving DecidableEq, Repr

/-- Deterministic outcomes of the orchestration's awaited collaborator calls
(`CreateOrderCommand.execute`).  Each field is the result of the corresponding
step when it is reached — the claims about the orchestrator concern only how
errors propagate between the steps, so each collaborator is an oracle. -/
structure SagaEnv where
  /-- Step 1: `getCart` (repository lookup, `购物车不存在` on a miss). -/
  getCart : Except String CartModel
  /-- Step 3: `inventoryService.reserveInventoryBatch`. -/
  reserveInventoryBatch : Except String (List Product)
  /-- Step 4: `createOrderItems` over the cart lines and reserved products. -/
  createOrderItems : Except String (List OrderItem)
  /-- Step 5: `new Address(...)` for the shipping address. -/
  createShippingAddress : Except String Address
  /-- Step 5: `new Address(...)` for the billing address (defaulted to the
  shipping address by the caller when absent). -/
  createBillingAddress : Except String Address
  /-- Step 6: `orderPricingService.calculateOrderPricing`. -/
  pricingResult : Except String OrderPricing
  /-- Step 7: `Order.create` (the aggregate's own invariant check). -/
  orderCreate : Except String OrderProps
  /-- Step 8: `orderRepository.save`. -/
  saveOrder : Except String Unit
  /-- Step 9: `cartRepository.save` after `cart.clear()`. -/
  saveCart : Except String Unit
  /-- Step 10: `publishEvents`. -/
  publishEvents : Except String Unit
  /-- Outcome of `inventoryService.releaseReservedInventoryBatch` inside the
  compensation helper. -/
  releaseReserved : Except String Unit

/-- The `try { … }` block of `execute`: steps 4–10, which run only after the
inventory reservation succeeded.  Surfaces the pricing used to build the
response. -/
def tryBlock (env : SagaEnv) : Except String OrderPricing := do
  let _orderItems ← env.createOrderItems
  let _shippingAddress ← env.createShippingAddress
  let _billingAddress ← env.createBillingAddress
  let pricing ← env.pricingResult
  let _order ← env.orderCreate
  env.saveOrder
  env.saveCart
  env.publishEvents
  .ok pricing

/-- `releaseReservedInventory`: wraps the release call in its own
`try/catch` — an error is logged and swallowed, never rethrown. -/
def releaseReservedInventory (env : SagaEnv) : Unit :=
  match env.releaseReserved with
  | .ok () => ()
  | .error _ => ()  -- 记录错误但不抛出，避免掩盖原始错误

/-- The observable outcome of one `execute` call: the value returned or error
thrown, plus whether the compensation helper was invoked for the reserved
batch. -/
structure SagaOutcome where
  result : Except String OrderPricing
  releaseInvoked : Bool
deriving DecidableEq, Repr

/-- `CreateOrderCommand.execute`: resolve the cart, reject an empty cart,
reserve inventory (no compensation on failure here — nothing was reserved),
then run steps 4–10 under the catch that releases the reserved batch and
rethrows the original error. -/
def execute (env : SagaEnv) : SagaOutcome :=
  match env.getCart with
  | .error e => ⟨.error e, false⟩
  | .ok cart =>
    if cart.isEmptyCart then ⟨.error "购物车为空，无法创建订单", false⟩
    else
      match env.reserveInventoryBatch with
      | .error e => ⟨.error e, false⟩
      | .ok _reservedProducts =>
        match tryBlock env with
        | .ok pricing => ⟨.ok pricing, false⟩
        | .error e =>
          -- 如果订单创建失败，释放已预留的库存；随后原样重新抛出
          let _ := releaseReservedInventory env
          ⟨.error e, true⟩

end CreateOrderCommand

/-!
## Binary64 refinement of `Money`

The rational model above idealizes JS numbers.  One claim is specifically
about where that idealization breaks: `Money.add` feeds the raw IEEE-754
double sum back into the precision-validating constructor.  The following
model represents a JS number by the exact rational value of its binary64
double and embeds the arithmetic with explicit round-to-nearest, ties-to-even
(overflow and subnormals are irrelevant in the range used and are not
modelled). -/

/-- Round to the nearest integer, ties to even. -/
def rnte (x : ℚ) : ℤ :=
  if x - ⌊x⌋ < 1/2 then ⌊x⌋
  else if 1/2 < x - ⌊x⌋ then ⌊x⌋ + 1
  else if 2 ∣ ⌊x⌋ then ⌊x⌋ else ⌊x⌋ + 1

/-- Round a (nonzero, non-overflowing) rational to the nearest binary64
double: scale into the 53-bit binade given by `Int.log 2 |q|`, round the
significand to the nearest integer (ties to even), and scale back. -/
def roundDouble (q : ℚ) : ℚ :=
  if q = 0 then 0
  else
    let e : ℤ := Int.log 2 |q| - 52
    (rnte (q / 2 ^ e) : ℚ) * 2 ^ e

/-- A double `v` prints (via ES `Number::toString`, which produces the
shortest decimal that parses back to exactly `v`) with at most two fractional
digits iff some decimal with at most two fractional digits parses back to
`v`; parsing a decimal literal rounds it to the nearest double. -/
def printsWithAtMostTwoDecimals (v : ℚ) : Prop :=
  ∃ m : ℤ, roundDouble ((m : ℚ) / 100) = v

/-- `Money` over binary64: the amount is the exact value of the stored
double. -/
structure MoneyF where
  amount : ℚ
  currency : Currency

/-- `Money.validate` in the binary64 model: non-negative and at most two
decimal places in the printed representation.  (`Number.isFinite` holds
throughout the range modelled; the currency check cannot fail.) -/
def MoneyF.validOk (m : MoneyF) : Prop :=
  0 ≤ m.amount ∧ printsWithAtMostTwoDecimals m.amount

/-- The amount computed by `Money.add` before re-validation: the binary64
sum `this.props.amount + other.props.amount`. -/
def MoneyF.addAmount (a b : MoneyF) : ℚ := roundDouble (a.amount + b.amount)

/-- `Money.add` in the binary64 model raises the precision error
`金额精度最多2位小数` exactly when the rounded raw sum passes the sign check
but fails the two-decimals check in the constructor's `validate`. -/
def MoneyF.addRaisesPrecisionError (a b : MoneyF) : Prop :=
  a.currency = b.currency ∧ 0 ≤ a.addAmount b ∧
    ¬ printsWithAtMostTwoDecimals (a.addAmount b)

/-- The double nearest the decimal literal `0.1`. -/
def pointOne : ℚ := roundDouble (1/10)

/-- The double nearest the decimal literal `0.2`. -/
def pointTwo : ℚ := roundDouble (2/10)

/-!
## Sample data

Concrete values used by witnesses and counterexamples.
-/

/-- A valid order item: 1 × ¥100, no item discount. -/
def sampleItem : OrderItem :=
  ⟨"p1", "商品A", "SKU1", 1, ⟨100, Currency.CNY⟩, ⟨100, Currency.CNY⟩, ⟨0, Currency.CNY⟩⟩

/-- A first-tier-city address (province 北京). -/
def sampleAddress : Address :=
  ⟨"中国", "北京", "北京市", "海淀区", "学院路1号", "100000", "张三", "13800000000"⟩

/-- A valid PENDING order holding `sampleItem`. -/
def sampleOrder : OrderProps :=
  { orderNumber := "20250101000001"
    customerId := "c1"
    items := [sampleItem]
    shippingAddress := sampleAddress
    billingAddress := sampleAddress
    subtotal := ⟨100, Currency.CNY⟩
    discountAmount := ⟨0, Currency.CNY⟩
    shippingFee := ⟨0, Currency.CNY⟩
    taxAmount := ⟨0, Currency.CNY⟩
    totalAmount := ⟨100, Currency.CNY⟩
    paymentMethod := PaymentMethod.ALIPAY
    status := OrderStatus.PENDING
    paymentStatus := PaymentStatus.PENDING
    shippingStatus := ShippingStatus.PENDING
    orderDate := 0
    paidAt := none
    shippedAt := none
    deliveredAt := none
    notes := none }

/-!
## Claim theorems
-/

/-- `Inventory.make` only ever yields states satisfying the aggregate
invariant of C8. -/
theorem Inventory.make_invariant {q r m : ℤ} {inv : Inventory}
    (h : Inventory.make q r m = .ok inv) :
    inv = ⟨q, r, m⟩ ∧ 0 ≤ r ∧ r ≤ q := by
  simp only [Inventory.make, Inventory.validate, bind, Except.bind, throw, throwThe,
    MonadExceptOf.throw, pure, Except.pure] at h
  split_ifs at h with h1 h2 h3 h4
  injection h with h
  exact ⟨h.symm, by omega, by omega⟩

/--
C8: Every Inventory value satisfies 0 ≤ reservedQuantity ≤ quantity, and every
inventory operation (reserve, releaseReservation, deduct, addStock) either
returns a new Inventory preserving this invariant or throws, so a product's
reserved stock never exceeds its total stock.
-/
theorem C8_inventory_invariant :
    (∀ (q r m : ℤ) (inv : Inventory), Inventory.make q r m = .ok inv →
      0 ≤ inv.reservedQuantity ∧ inv.reservedQuantity ≤ inv.quantity) ∧
    (∀ (i : Inventory) (q : ℤ) (inv : Inventory), i.reserve q = .ok inv →
      0 ≤ inv.reservedQuantity ∧ inv.reservedQuantity ≤ inv.quantity) ∧
    (∀ (i : Inventory) (q : ℤ) (inv : Inventory), i.releaseReservation q = .ok inv →
      0 ≤ inv.reservedQuantity ∧ inv.reservedQuantity ≤ inv.quantity) ∧
    (∀ (i : Inventory) (q : ℤ) (inv : Inventory), i.deduct q = .ok inv →
      0 ≤ inv.reservedQuantity ∧ inv.reservedQuantity ≤ inv.quantity) ∧
    (∀ (i : Inventory) (q : ℤ) (inv : Inventory), i.addStock q = .ok inv →
      0 ≤ inv.reservedQuantity ∧ inv.reservedQuantity ≤ inv.quantity) := by
  have base : ∀ (q r m : ℤ) (inv : Inventory), Inventory.make q r m = .ok inv →
      0 ≤ inv.reservedQuantity ∧ inv.reservedQuantity ≤ inv.quantity := by
    intro q r m inv h
    obtain ⟨rfl, h1, h2⟩ := Inventory.make_invariant h
    exact ⟨h1, h2⟩
  refine ⟨base, ?_, ?_, ?_, ?_⟩ <;> intro i q inv h
  · simp only [Inventory.reserve, bind, Except.bind, throw, throwThe,
      MonadExceptOf.throw, pure, Except.pure] at h
    split_ifs at h
    exact base _ _ _ _ h
  · simp only [Inventory.releaseReservation, bind, Except.bind, throw, throwThe,
      MonadExceptOf.throw, pure, Except.pure] at h
    split_ifs at h
    exact base _ _ _ _ h
  · simp only [Inventory.deduct, bind, Except.bind, throw, throwThe,
      MonadExceptOf.throw, pure, Except.pure] at h
    split_ifs at h
    exact base _ _ _ _ h
  · simp only [Inventory.addStock, bind, Except.bind, throw, throwThe,
      MonadExceptOf.throw, pure, Except.pure] at h
    split_ifs at h
    exact base _ _ _ _ h

/-- Witness for C8: a concrete reservation preserving the invariant. -/
theorem C8_inventory_invariant_witness :
    Inventory.reserve ⟨100, 0, 0⟩ 10 = .ok ⟨100, 10, 0⟩ ∧
    0 ≤ (10 : ℤ) ∧ (10 : ℤ) ≤ 100 := by
  refine ⟨by decide, ?_, ?_⟩
  · exact (C8_inventory_invariant.2.1 ⟨100, 0, 0⟩ 10 ⟨100, 10, 0⟩ (by decide)).1
  · exact (C8_inventory_invariant.2.1 ⟨100, 0, 0⟩ 10 ⟨100, 10, 0⟩ (by decide)).2

/--
C9: Every Order lifecycle method (pay, startProcessing, ship, deliver,
complete, cancel, refund) invoked in a state where its precondition fails
raises an error and leaves every field of the order unchanged (status,
paymentStatus, shippingStatus, timestamps, pricing, items).
-/
theorem C9_failed_transition_leaves_order_unchanged :
    ∀ (o : OrderProps) (pid sid tn ca re : String) (now : ℕ),
      ((Order.pay pid now o).1.isSome = true → (Order.pay pid now o).2 = o) ∧
      ((Order.startProcessing o).1.isSome = true → (Order.startProcessing o).2 = o) ∧
      ((Order.ship sid tn ca now o).1.isSome = true → (Order.ship sid tn ca now o).2 = o) ∧
      ((Order.deliver now o).1.isSome = true → (Order.deliver now o).2 = o) ∧
      ((Order.complete o).1.isSome = true → (Order.complete o).2 = o) ∧
      ((Order.cancel re now o).1.isSome = true → (Order.cancel re now o).2 = o) ∧
      ((Order.refund o).1.isSome = true → (Order.refund o).2 = o) := by
  intro o pid sid tn ca re now
  refine ⟨?_, ?_, ?_, ?_, ?_, ?_, ?_⟩ <;> intro h
  · unfold Order.pay at h ⊢
    split_ifs at h ⊢ <;> simp_all
  · unfold Order.startProcessing at h ⊢
    split_ifs at h ⊢ <;> simp_all
  · unfold Order.ship at h ⊢
    split_ifs at h ⊢ <;> simp_all
  · unfold Order.deliver at h ⊢
    split_ifs at h ⊢ <;> simp_all
  · unfold Order.complete at h ⊢
    split_ifs at h ⊢ <;> simp_all
  · unfold Order.cancel at h ⊢
    split_ifs at h ⊢ <;> simp_all
  · unfold Order.refund at h ⊢
    split_ifs at h ⊢ <;> simp_all

/-- Witness for C9 (spec scenario D): `cancel` on a SHIPPED order raises and
the order is unchanged. -/
theorem C9_failed_transition_witness :
    (Order.cancel "用户取消" 7
      { sampleOrder with status := OrderStatus.SHIPPED,
                         shippingStatus := ShippingStatus.SHIPPED }).1 =
        some "已发货的订单不能取消" ∧
    (Order.cancel "用户取消" 7
      { sampleOrder with status := OrderStatus.SHIPPED,
                         shippingStatus := ShippingStatus.SHIPPED }).2 =
      { sampleOrder with status := OrderStatus.SHIPPED,
                         shippingStatus := ShippingStatus.SHIPPED } := by
  refine ⟨by decide, ?_⟩
  exact (C9_failed_transition_leaves_order_unchanged
    { sampleOrder with status := OrderStatus.SHIPPED,
                       shippingStatus := ShippingStatus.SHIPPED }
    "x" "x" "x" "x" "用户取消" 7).2.2.2.2.2.1 (by decide)

/--
C4 (amended): `Order.cancel(reason)` raises an error exactly when the status
is SHIPPED, DELIVERED or COMPLETED; hence CANCELLED is reachable not only
from PENDING, PAID and PROCESSING but also from CANCELLED and REFUNDED.  When
cancel succeeds from PAID or PROCESSING it also sets paymentStatus REFUNDED
(otherwise the payment status is untouched), and every success sets the
status to CANCELLED.
-/
theorem C4_cancel_guard_and_effects :
    ∀ (o : OrderProps) (re : String) (now : ℕ),
      ((Order.cancel re now o).1.isSome = true ↔
        (o.status = OrderStatus.SHIPPED ∨ o.status = OrderStatus.DELIVERED ∨
         o.status = OrderStatus.COMPLETED)) ∧
      ((Order.cancel re now o).1 = none →
        (Order.cancel re now o).2.status = OrderStatus.CANCELLED ∧
        ((o.status = OrderStatus.PAID ∨ o.status = OrderStatus.PROCESSING) →
          (Order.cancel re now o).2.paymentStatus = PaymentStatus.REFUNDED) ∧
        (¬ (o.status = OrderStatus.PAID ∨ o.status = OrderStatus.PROCESSING) →
          (Order.cancel re now o).2.paymentStatus = o.paymentStatus)) := by
  intro o re now
  unfold Order.cancel
  split_ifs with h1 h2 <;> simp_all

/-- Counterexample for C4 as frozen: an order constructed by `create`, taken
through `pay` and `refund`, sits in REFUNDED status, yet `cancel` succeeds on
it — so CANCELLED is also reachable from REFUNDED, not only from
PENDING/PAID/PROCESSING. -/
theorem C4_cancel_from_refunded_counterexample :
    Order.reconstitute sampleOrder = .ok sampleOrder ∧
    (Order.pay "pay1" 1 sampleOrder).1 = none ∧
    (Order.refund (Order.pay "pay1" 1 sampleOrder).2).1 = none ∧
    (Order.refund (Order.pay "pay1" 1 sampleOrder).2).2.status = OrderStatus.REFUNDED ∧
    (Order.cancel "改变主意" 2 (Order.refund (Order.pay "pay1" 1 sampleOrder).2).2).1 = none ∧
    (Order.cancel "改变主意" 2 (Order.refund (Order.pay "pay1" 1 sampleOrder).2).2).2.status =
      OrderStatus.CANCELLED := by
  refine ⟨?_, by decide, by decide, by decide, by decide, by decide⟩
  norm_num [Order.reconstitute, Order.construct, Order.validate,
    Order.calculateSubtotalFromItems, Order.calculatedTotal, Money.add, Money.subtract,
    Money.make, Money.validate, Money.equals, Money.zero, sampleOrder, sampleItem,
    List.foldlM, bind, Except.bind, pure, Except.pure, throw, throwThe, MonadExceptOf.throw]
  decide

/-- Witness for C4: `cancel` on a PAID order succeeds, flips the payment
status to REFUNDED and sets the status to CANCELLED. -/
theorem C4_cancel_guard_witness :
    (Order.cancel "不想要了" 3 (Order.pay "pay1" 1 sampleOrder).2).1 = none ∧
    (Order.cancel "不想要了" 3 (Order.pay "pay1" 1 sampleOrder).2).2.status =
      OrderStatus.CANCELLED ∧
    (Order.cancel "不想要了" 3 (Order.pay "pay1" 1 sampleOrder).2).2.paymentStatus =
      PaymentStatus.REFUNDED := by
  have h := C4_cancel_guard_and_effects (Order.pay "pay1" 1 sampleOrder).2 "不想要了" 3
  refine ⟨by decide, (h.2 (by decide)).1, (h.2 (by decide)).2.1 (by decide)⟩

/--
C5: In the checkout orchestration (`CreateOrderCommand.execute`), if any step
after successful inventory reservation throws (item building, pricing, order
construction, persistence, cart clearing, or event publication), the
orchestrator calls `releaseReservedInventory` for the reserved batch and then
rethrows the original error unchanged; an error thrown during that release is
swallowed (logged only) and never replaces the original error.  The last
conjunct makes the swallowing explicit: the outcome is the same whatever the
release call returns.
-/
theorem C5_compensation_rethrows_original_error :
    ∀ (env : CreateOrderCommand.SagaEnv) (cart : CreateOrderCommand.CartModel)
      (ps : List Product) (e : String),
      env.getCart = .ok cart →
      cart.isEmptyCart = false →
      env.reserveInventoryBatch = .ok ps →
      CreateOrderCommand.tryBlock env = .error e →
      CreateOrderCommand.execute env = ⟨.error e, true⟩ ∧
      (∀ rel, CreateOrderCommand.execute { env with releaseReserved := rel } =
        ⟨.error e, true⟩) := by
  intro env cart ps e hcart hempty hres htry
  have main : ∀ (env2 : CreateOrderCommand.SagaEnv),
      env2.getCart = .ok cart → env2.reserveInventoryBatch = .ok ps →
      CreateOrderCommand.tryBlock env2 = .error e →
      CreateOrderCommand.execute env2 = ⟨.error e, true⟩ := by
    intro env2 h1 h2 h3
    unfold CreateOrderCommand.execute
    rw [h1]
    simp only [hempty, Bool.false_eq_true, if_false]
    rw [h2, h3]
  have hblock : ∀ rel, CreateOrderCommand.tryBlock { env with releaseReserved := rel } =
      CreateOrderCommand.tryBlock env := by
    intro rel
    simp [CreateOrderCommand.tryBlock]
  exact ⟨main env hcart hres htry,
    fun rel => main _ hcart hres ((hblock rel).trans htry)⟩

/-- A concrete saga environment for the C5 witness: a non-empty cart, a
successful reservation, a failing order persistence and a compensation whose
own release also fails. -/
def envSample : CreateOrderCommand.SagaEnv :=
  { getCart := .ok ⟨false⟩
    reserveInventoryBatch := .ok []
    createOrderItems := .ok [sampleItem]
    createShippingAddress := .ok sampleAddress
    createBillingAddress := .ok sampleAddress
    pricingResult := .ok ⟨⟨100, Currency.CNY⟩, ⟨0, Currency.CNY⟩, ⟨0, Currency.CNY⟩,
      ⟨0, Currency.CNY⟩, ⟨100, Currency.CNY⟩⟩
    orderCreate := .ok sampleOrder
    saveOrder := .error "订单保存失败"
    saveCart := .ok ()
    publishEvents := .ok ()
    releaseReserved := .error "释放库存失败" }

/-- Witness for C5: on `envSample` the original persistence error surfaces,
compensation ran, and the failing release did not replace the error. -/
theorem C5_compensation_witness :
    CreateOrderCommand.execute envSample = ⟨.error "订单保存失败", true⟩ := by
  exact (C5_compensation_rethrows_original_error envSample ⟨false⟩ [] "订单保存失败"
    (by decide) (by decide) (by decide) (by decide)).1

/-- Splitting a successful `Except` bind into its two successful stages. -/
theorem exceptBindOk {ε α β : Type} {x : Except ε α} {f : α → Except ε β} {b : β} :
    (x >>= f) = .ok b ↔ ∃ a, x = .ok a ∧ f a = .ok b := by
  cases x <;> simp [Bind.bind, Except.bind]

/-- A guard statement (`if c then throw e`) succeeds iff its condition is
false. -/
theorem guardThrowOk {ε : Type} {c : Prop} [Decidable c] {e : ε} {u : Unit} :
    (if c then (throw e : Except ε Unit) else pure ()) = .ok u ↔ ¬ c := by
  split_ifs with h <;> simp [throw, throwThe, MonadExceptOf.throw, pure, Except.pure, h]

/-- The aggregate invariant of C1, phrased with the same recomputations the
constructor performs (`Money.equals` is exact structural equality, see
`Money.equals_iff`): the stored subtotal is the recomputed item sum, the
stored total is `subtotal - discount + shippingFee + taxAmount`, and the
status fields are pairwise consistent. -/
def OrderInvariant (p : OrderProps) : Prop :=
  Order.calculateSubtotalFromItems p.items = .ok p.subtotal ∧
  Order.calculatedTotal p = .ok p.totalAmount ∧
  (p.status = OrderStatus.PAID → p.paymentStatus = PaymentStatus.COMPLETED) ∧
  (p.status = OrderStatus.SHIPPED → p.shippingStatus = ShippingStatus.SHIPPED)

/-- A successful `Order.validate` establishes the C1 invariant. -/
theorem Order.validate_ok_invariant {p : OrderProps} {u : Unit}
    (h : Order.validate p = .ok u) : OrderInvariant p := by
  unfold Order.validate at h
  by_cases h1 : p.customerId = ""
  · rw [if_pos h1] at h; cases h
  rw [if_neg h1] at h
  by_cases h2 : p.items.isEmpty = true
  · rw [if_pos h2] at h; cases h
  rw [if_neg h2] at h
  cases hsub : Order.calculateSubtotalFromItems p.items with
  | error e => rw [hsub] at h; cases h
  | ok calc1 =>
    rw [hsub] at h
    dsimp only at h
    by_cases h3 : p.subtotal.equals calc1 = false
    · rw [if_pos h3] at h; cases h
    rw [if_neg h3] at h
    cases htot : Order.calculatedTotal p with
    | error e => rw [htot] at h; cases h
    | ok total =>
      rw [htot] at h
      dsimp only at h
      by_cases h4 : p.totalAmount.equals total = false
      · rw [if_pos h4] at h; cases h
      rw [if_neg h4] at h
      by_cases h5 : p.status = OrderStatus.PAID ∧ p.paymentStatus ≠ PaymentStatus.COMPLETED
      · rw [if_pos h5] at h; cases h
      rw [if_neg h5] at h
      by_cases h6 : p.status = OrderStatus.SHIPPED ∧ p.shippingStatus ≠ ShippingStatus.SHIPPED
      · rw [if_pos h6] at h; cases h
      have hsubeq : p.subtotal = calc1 := (Money.equals_iff _ _).mp (by
        revert h3; cases p.subtotal.equals calc1 <;> simp)
      have htoteq : p.totalAmount = total := (Money.equals_iff _ _).mp (by
        revert h4; cases p.totalAmount.equals total <;> simp)
      refine ⟨by rw [hsubeq]; exact hsub, by rw [htoteq]; exact htot, ?_, ?_⟩
      · intro hst
        by_contra hpay
        exact h5 ⟨hst, hpay⟩
      · intro hst
        by_contra hship
        exact h6 ⟨hst, hship⟩

/--
C1: Every successfully constructed Order (via create or reconstitute)
satisfies the aggregate invariant: subtotal equals the sum of its items'
totalPrice, totalAmount equals subtotal - discountAmount + shippingFee +
taxAmount, status PAID implies paymentStatus COMPLETED, and status SHIPPED
implies shippingStatus SHIPPED; construction raises an error for any props
violating one of these.
-/
theorem C1_order_construction_invariant :
    (∀ (p o : OrderProps), Order.reconstitute p = .ok o → o = p ∧ OrderInvariant o) ∧
    (∀ (p : OrderProps), ¬ OrderInvariant p → ∀ o, Order.reconstitute p ≠ .ok o) ∧
    (∀ (cid : String) (items : List OrderItem) (sa ba : Address)
      (pm : PaymentMethod) (sf ta da : Money) (notes : Option String)
      (onum : String) (now : ℕ) (o : OrderProps),
      Order.create cid items sa ba pm sf ta da notes onum now = .ok o →
      OrderInvariant o) := by
  have hcon : ∀ (p o : OrderProps), Order.construct p = .ok o → o = p ∧ OrderInvariant o := by
    intro p o h
    unfold Order.construct at h
    rw [exceptBindOk] at h
    obtain ⟨u, hv, h2⟩ := h
    injection h2 with h2
    exact ⟨h2.symm, h2 ▸ Order.validate_ok_invariant hv⟩
  refine ⟨fun p o h => hcon p o h, ?_, ?_⟩
  · intro p hninv o hok
    obtain ⟨heq, hinv⟩ := hcon p o hok
    exact hninv (heq ▸ hinv)
  · intro cid items sa ba pm sf ta da notes onum now o h
    unfold Order.create at h
    by_cases hempty : items.isEmpty = true
    · rw [if_pos hempty] at h; cases h
    rw [if_neg hempty] at h
    rw [exceptBindOk] at h
    obtain ⟨sub, _, h⟩ := h
    rw [exceptBindOk] at h
    obtain ⟨afterDiscount, _, h⟩ := h
    rw [exceptBindOk] at h
    obtain ⟨withShipping, _, h⟩ := h
    rw [exceptBindOk] at h
    obtain ⟨tot, _, h⟩ := h
    exact (hcon _ _ h).2

/-- Witness for C1: `sampleOrder` reconstitutes successfully and satisfies
the invariant. -/
theorem C1_order_construction_invariant_witness :
    Order.reconstitute sampleOrder = .ok sampleOrder ∧ OrderInvariant sampleOrder := by
  have hrec : Order.reconstitute sampleOrder = .ok sampleOrder := by
    norm_num [Order.reconstitute, Order.construct, Order.validate,
      Order.calculateSubtotalFromItems, Order.calculatedTotal, Money.add, Money.subtract,
      Money.make, Money.validate, Money.equals, Money.zero, sampleOrder, sampleItem,
      List.foldlM, bind, Except.bind, pure, Except.pure]
    decide
  exact ⟨hrec, (C1_order_construction_invariant.1 sampleOrder sampleOrder hrec).2⟩

/-- Anatomy of a successful `Money.make`. -/
theorem Money.make_ok {q : ℚ} {c : Currency} {m : Money}
    (h : Money.make q c = .ok m) : m = ⟨q, c⟩ ∧ 0 ≤ q ∧ (q * 100).den = 1 := by
  unfold Money.make Money.validate at h
  simp only [bind, Except.bind, pure, Except.pure] at h
  split_ifs at h with h1 h2
  injection h with h
  exact ⟨h.symm, le_of_not_lt h1, not_not.mp h2⟩

/-- A `Money.make` with a non-negative two-decimal amount succeeds. -/
theorem Money.make_eq_ok {q : ℚ} {c : Currency} (h0 : 0 ≤ q)
    (h1 : (q * 100).den = 1) : Money.make q c = .ok ⟨q, c⟩ := by
  unfold Money.make Money.validate
  simp only [bind, Except.bind, pure, Except.pure]
  rw [if_neg (not_lt.mpr h0), if_neg (by simp [h1])]

/-- Anatomy of a successful `Money.subtract`. -/
theorem Money.subtract_ok {a b c : Money} (h : a.subtract b = .ok c) :
    a.currency = b.currency ∧ c.amount = a.amount - b.amount ∧
    c.currency = a.currency ∧ b.amount ≤ a.amount := by
  unfold Money.subtract at h
  split_ifs at h with h1 h2
  obtain ⟨rfl, h3, _⟩ := Money.make_ok h
  exact ⟨not_not.mp h1, rfl, rfl, by linarith [not_lt.mp h2]⟩

/-- Pricing breakdown supplied in the C2 counterexample: subtotal ¥100.01 and
total ¥100.01 against a recomputed subtotal of ¥100 — inside the claimed 0.01
tolerance, yet rejected by the exact comparison in the code. -/
def c2Pricing : OrderPricing :=
  ⟨⟨10001/100, Currency.CNY⟩, ⟨0, Currency.CNY⟩, ⟨0, Currency.CNY⟩, ⟨0, Currency.CNY⟩,
   ⟨10001/100, Currency.CNY⟩⟩

/-- Counterexample for C2 as frozen: the supplied subtotal differs from the
recomputed one by exactly 0.01 (within the claimed tolerance), the supplied
total matches its recomputation exactly, every component is non-negative and
the discount does not exceed the subtotal — so the claim says the result is
valid — yet `validateOrderPricing` reports a subtotal discrepancy, because the
code compares with exact `Money.equals`, not a 0.01 tolerance. -/
theorem C2_tolerance_counterexample :
    OrderPricingService.calculateSubtotal [sampleItem] = .ok ⟨100, Currency.CNY⟩ ∧
    |c2Pricing.subtotal.amount - (100 : ℚ)| ≤ 1/100 ∧
    OrderPricingService.calculatedTotalOf c2Pricing = .ok ⟨10001/100, Currency.CNY⟩ ∧
    c2Pricing.totalAmount = ⟨10001/100, Currency.CNY⟩ ∧
    0 ≤ c2Pricing.subtotal.amount ∧ 0 ≤ c2Pricing.discountAmount.amount ∧
    0 ≤ c2Pricing.shippingFee.amount ∧ 0 ≤ c2Pricing.taxAmount.amount ∧
    c2Pricing.discountAmount.amount ≤ c2Pricing.subtotal.amount ∧
    OrderPricingService.validateOrderPricing [sampleItem] c2Pricing =
      .ok ⟨false, [OrderPricingService.PricingDiscrepancy.subtotalMismatch 100 (10001/100)]⟩ := by
  norm_num [OrderPricingService.validateOrderPricing, OrderPricingService.calculateSubtotal,
    OrderPricingService.calculatedTotalOf, Money.add, Money.subtract, Money.make,
    Money.validate, Money.equals, Money.isGreaterThan, Money.zero, sampleItem, c2Pricing,
    List.foldlM, bind, Except.bind, pure, Except.pure, abs_le]

/--
C2 (amended): For every item list and pricing breakdown on which
`validateOrderPricing` returns a result (rather than throwing), the result is
valid exactly when the supplied subtotal is exactly equal (`Money.equals`) to
the independently recomputed subtotal, the supplied total is exactly equal to
`subtotal - discount + shippingFee + tax` recomputed from the supplied
components, all four components are non-negative, and discount ≤ subtotal;
otherwise it is invalid, with a discrepancy entry per violated check
(`isValid` is exactly the emptiness of the discrepancy list).
-/
theorem C2_validate_pricing_exact :
    ∀ (items : List OrderItem) (pricing : OrderPricing)
      (r : OrderPricingService.PricingValidation) (calcSub total : Money),
      OrderPricingService.validateOrderPricing items pricing = .ok r →
      OrderPricingService.calculateSubtotal items = .ok calcSub →
      OrderPricingService.calculatedTotalOf pricing = .ok total →
      r.isValid = r.errors.isEmpty ∧
      (r.isValid = true ↔
        (pricing.subtotal = calcSub ∧ pricing.totalAmount = total ∧
         pricing.discountAmount.amount ≤ pricing.subtotal.amount ∧
         0 ≤ pricing.subtotal.amount ∧ 0 ≤ pricing.discountAmount.amount ∧
         0 ≤ pricing.shippingFee.amount ∧ 0 ≤ pricing.taxAmount.amount)) := by
  intro items pricing r calcSub total h hcalc htot
  have hcur : pricing.subtotal.currency = pricing.discountAmount.currency := by
    unfold OrderPricingService.calculatedTotalOf at htot
    rw [exceptBindOk] at htot
    obtain ⟨ad, hsub, _⟩ := htot
    exact (Money.subtract_ok hsub).1
  have hgt : pricing.discountAmount.isGreaterThan pricing.subtotal =
      .ok (decide (pricing.subtotal.amount < pricing.discountAmount.amount)) := by
    unfold Money.isGreaterThan
    rw [if_neg (by rw [hcur]; simp)]
  unfold OrderPricingService.validateOrderPricing at h
  rw [hcalc] at h
  dsimp only at h
  rw [htot] at h
  dsimp only at h
  rw [hgt] at h
  dsimp only at h
  injection h with h
  subst h
  refine ⟨rfl, ?_⟩
  show (_ ++ _ ++ _ ++ _ ++ _ ++ _ ++ _ : List _).isEmpty = true ↔ _
  simp only [List.isEmpty_iff, List.append_eq_nil]
  have iteA : ∀ (c : Prop) (inst : Decidable c)
      (x : OrderPricingService.PricingDiscrepancy),
      ((if c then ([] : List OrderPricingService.PricingDiscrepancy) else [x]) = [] ↔ c) := by
    intro c inst x
    split_ifs with hc <;> simp [hc]
  have iteB : ∀ (c : Prop) (inst : Decidable c)
      (x : OrderPricingService.PricingDiscrepancy),
      ((if c then [x] else ([] : List OrderPricingService.PricingDiscrepancy)) = [] ↔ ¬ c) := by
    intro c inst x
    split_ifs with hc <;> simp [hc]
  simp only [iteA, iteB, Money.equals_iff, decide_eq_true_eq, not_lt]
  tauto

/-- Witness for the amended C2: on `sampleItem` with an exactly matching
breakdown the validator returns valid, as the amended equivalence predicts. -/
theorem C2_validate_pricing_exact_witness :
    OrderPricingService.validateOrderPricing [sampleItem]
      ⟨⟨100, Currency.CNY⟩, ⟨0, Currency.CNY⟩, ⟨0, Currency.CNY⟩, ⟨0, Currency.CNY⟩,
       ⟨100, Currency.CNY⟩⟩ =
      .ok ⟨true, []⟩ ∧
    ((true : Bool) = true ↔
      ((⟨100, Currency.CNY⟩ : Money) = ⟨100, Currency.CNY⟩ ∧
       (⟨100, Currency.CNY⟩ : Money) = ⟨100, Currency.CNY⟩ ∧
       (0 : ℚ) ≤ 100 ∧ (0 : ℚ) ≤ 100 ∧ (0 : ℚ) ≤ 0 ∧ (0 : ℚ) ≤ 0 ∧ (0 : ℚ) ≤ 0)) := by
  have hval : OrderPricingService.validateOrderPricing [sampleItem]
      ⟨⟨100, Currency.CNY⟩, ⟨0, Currency.CNY⟩, ⟨0, Currency.CNY⟩, ⟨0, Currency.CNY⟩,
       ⟨100, Currency.CNY⟩⟩ = .ok ⟨true, []⟩ := by
    norm_num [OrderPricingService.validateOrderPricing, OrderPricingService.calculateSubtotal,
      OrderPricingService.calculatedTotalOf, Money.add, Money.subtract, Money.make,
      Money.validate, Money.equals, Money.isGreaterThan, Money.zero, sampleItem,
      List.foldlM, bind, Except.bind, pure, Except.pure]
  have hcalc : OrderPricingService.calculateSubtotal [sampleItem] = .ok ⟨100, Currency.CNY⟩ := by
    norm_num [OrderPricingService.calculateSubtotal, Money.add, Money.make, Money.validate,
      Money.zero, sampleItem, List.foldlM, bind, Except.bind, pure, Except.pure]
  have htot : OrderPricingService.calculatedTotalOf
      ⟨⟨100, Currency.CNY⟩, ⟨0, Currency.CNY⟩, ⟨0, Currency.CNY⟩, ⟨0, Currency.CNY⟩,
       ⟨100, Currency.CNY⟩⟩ = .ok ⟨100, Currency.CNY⟩ := by
    norm_num [OrderPricingService.calculatedTotalOf, Money.add, Money.subtract, Money.make,
      Money.validate, bind, Except.bind, pure, Except.pure]
  refine ⟨hval, ?_⟩
  have h := (C2_validate_pricing_exact [sampleItem] _ ⟨true, []⟩ ⟨100, Currency.CNY⟩
    ⟨100, Currency.CNY⟩ hval hcalc htot).2
  simp at h
  simp [h]

/-- Order item used by the C3 counterexample: 1 × ¥199. -/
def c3Item : OrderItem :=
  ⟨"p2", "商品C", "SKU3", 1, ⟨199, Currency.CNY⟩, ⟨199, Currency.CNY⟩, ⟨0, Currency.CNY⟩⟩

/-- Counterexample for C3 as frozen: with the first-tier-city rule
(threshold ¥199) and `subtotal - discount = ¥199`, the claimed condition
`(subtotal − discount) ≥ threshold` holds, but the fee is the ¥8 base rate,
not zero — the code waives shipping only for a strictly greater amount. -/
theorem C3_threshold_counterexample :
    OrderPricingService.getShippingRuleByAddress sampleAddress =
      some ⟨"一线城市", ⟨8, Currency.CNY⟩, some ⟨199, Currency.CNY⟩, none⟩ ∧
    Money.subtract ⟨199, Currency.CNY⟩ ⟨0, Currency.CNY⟩ = .ok ⟨199, Currency.CNY⟩ ∧
    (199 : ℚ) - 0 ≥ 199 ∧
    OrderPricingService.calculateShippingFee [c3Item] sampleAddress
      ⟨199, Currency.CNY⟩ ⟨0, Currency.CNY⟩ = .ok ⟨8, Currency.CNY⟩ ∧
    (⟨8, Currency.CNY⟩ : Money) ≠ Money.zero Currency.CNY := by
  refine ⟨by norm_num [OrderPricingService.getShippingRuleByAddress, sampleAddress], ?_, by norm_num, ?_, by simp [Money.zero]⟩
  · norm_num [Money.subtract, Money.make, Money.validate, bind, Except.bind, pure, Except.pure]
  · norm_num [OrderPricingService.calculateShippingFee,
      OrderPricingService.getShippingRuleByAddress, sampleAddress, Money.subtract, Money.make,
      Money.validate, Money.isGreaterThan, Money.zero, bind, Except.bind, pure, Except.pure]

/--
C3 (amended): In `calculateShippingFee`, for every item list, address and
subtotal/discount pair whose subtraction succeeds, the resolved rule always
carries a free-shipping threshold, and the shipping fee is zero whenever
`(subtotal − discount)` is STRICTLY greater than the threshold; otherwise it
equals the region's base rate plus `weightMultiplier × total item quantity`
(weightMultiplier treated as 0 when absent).
-/
theorem C3_shipping_fee_strict_threshold :
    ∀ (items : List OrderItem) (addr : Address) (subtotal discount after : Money)
      (rule : ShippingRule) (thr : Money) (w : ℕ),
      OrderPricingService.getShippingRuleByAddress addr = some rule →
      rule.freeShippingThreshold = some thr →
      Money.subtract subtotal discount = .ok after →
      subtotal.currency = Currency.CNY →
      OrderPricingService.calculateTotalWeight items = (w : ℚ) →
      ((thr.amount < after.amount →
        OrderPricingService.calculateShippingFee items addr subtotal discount =
          .ok (Money.zero subtotal.currency)) ∧
       (¬ thr.amount < after.amount →
        OrderPricingService.calculateShippingFee items addr subtotal discount =
          .ok ⟨rule.baseRate.amount + rule.weightMultiplier.getD 0 * w, Currency.CNY⟩)) := by
  intro items addr subtotal discount after rule thr w hrule hthr hsub hcur hw
  have hacur : after.currency = Currency.CNY := by
    rw [(Money.subtract_ok hsub).2.2.1, hcur]
  have hshape := hrule
  unfold OrderPricingService.getShippingRuleByAddress at hshape
  split_ifs at hshape with hprov
  · -- 一线城市
    injection hshape with hshape
    subst hshape
    injection hthr with hthr
    subst hthr
    have hgt : after.isGreaterThan ⟨199, Currency.CNY⟩ =
        .ok (decide ((199 : ℚ) < after.amount)) := by
      unfold Money.isGreaterThan
      rw [if_neg (by rw [hacur]; simp)]
    unfold OrderPricingService.calculateShippingFee
    rw [hrule]
    dsimp only
    rw [hsub]
    dsimp only
    rw [hgt]
    dsimp only
    constructor
    · intro hlt
      rw [decide_eq_true hlt]
      simp
    · intro hnlt
      rw [decide_eq_false hnlt]
      simp only [Bool.false_eq_true, if_false]
      norm_num [Money.mk.injEq]
  · -- 其他地区
    injection hshape with hshape
    subst hshape
    injection hthr with hthr
    subst hthr
    have hgt : after.isGreaterThan ⟨299, Currency.CNY⟩ =
        .ok (decide ((299 : ℚ) < after.amount)) := by
      unfold Money.isGreaterThan
      rw [if_neg (by rw [hacur]; simp)]
    have hden : (((w : ℚ) * 2) * 100).den = 1 := by
      have h200 : ((w : ℚ) * 2) * 100 = ((w * 200 : ℕ) : ℚ) := by push_cast; ring
      rw [h200, Rat.den_natCast]
    have hden2 : (((12 : ℚ) + (w : ℚ) * 2) * 100).den = 1 := by
      have h1200 : ((12 : ℚ) + (w : ℚ) * 2) * 100 = ((1200 + w * 200 : ℕ) : ℚ) := by
        push_cast; ring
      rw [h1200, Rat.den_natCast]
    unfold OrderPricingService.calculateShippingFee
    rw [hrule]
    dsimp only
    rw [hsub]
    dsimp only
    rw [hgt]
    dsimp only
    constructor
    · intro hlt
      rw [decide_eq_true hlt]
      simp
    · intro hnlt
      rw [decide_eq_false hnlt]
      simp only [Bool.false_eq_true, if_false]
      rw [if_neg (by norm_num)]
      rw [hw, hcur]
      rw [Money.make_eq_ok (by positivity) hden]
      dsimp only
      unfold Money.add
      rw [if_neg (by simp)]
      rw [Money.make_eq_ok (by positivity) hden2]
      norm_num [Money.mk.injEq]
      ring

/-- Witness for the amended C3: the 其他地区 rule on a 1-item cart below the
threshold yields `12 + 2 × 1 = ¥14`. -/
theorem C3_shipping_fee_strict_threshold_witness :
    OrderPricingService.calculateShippingFee [sampleItem]
      ⟨"中国", "四川", "成都市", "武侯区", "人民南路1号", "610000", "李四", "13900000000"⟩
      ⟨100, Currency.CNY⟩ ⟨0, Currency.CNY⟩ =
      .ok ⟨12 + 2 * (1 : ℕ), Currency.CNY⟩ := by
  have h := (C3_shipping_fee_strict_threshold [sampleItem]
    ⟨"中国", "四川", "成都市", "武侯区", "人民南路1号", "610000", "李四", "13900000000"⟩
    ⟨100, Currency.CNY⟩ ⟨0, Currency.CNY⟩ ⟨100, Currency.CNY⟩
    ⟨"其他地区", ⟨12, Currency.CNY⟩, some ⟨299, Currency.CNY⟩, some 2⟩
    ⟨299, Currency.CNY⟩ 1
    (by decide)
    rfl
    (by norm_num [Money.subtract, Money.make, Money.validate, bind, Except.bind, pure,
      Except.pure])
    rfl
    (by norm_num [OrderPricingService.calculateTotalWeight, sampleItem])).2
    (by norm_num)
  simpa using h

/-- The fully valid product of the C6 failing input: ACTIVE, 100 in stock,
none reserved. -/
def c6Product : Product :=
  ⟨"p1", "商品A", "SKU1", ⟨100, Currency.CNY⟩, ⟨100, 0, 0⟩, ProductStatus.ACTIVE⟩

/-- A one-product repository holding `c6Product`. -/
def c6Repo : ProductRepo := [("p1", c6Product)]

/--
C6 (code bug): the C6 claim describes the intended guard — an item is flagged
only when its product is missing, its status is not ACTIVE, or its available
stock is below the requested quantity.  The code instead compares the
lowercase runtime value of the status enum (`"active"`) with the uppercase
literal `'ACTIVE'` (`product.getStatus() !== 'ACTIVE'`), so EVERY existing
product — including a fully valid ACTIVE one — is flagged `商品已下架`, and
`reserveInventoryBatch` raises its aggregated error on every nonempty batch
(leaving the repository untouched).  `Product.reserveInventory` performs the
same guard correctly with the enum, and the spec's scenarios require an
ACTIVE, sufficiently stocked batch to be reserved, so the string comparison is
a slip in the code.  This theorem evaluates the embedded code at the failing
input.
-/
theorem C6_active_product_flagged_off_shelf :
    c6Product.status = ProductStatus.ACTIVE ∧
    (10 : ℤ) ≤ c6Product.inventory.getAvailableQuantity ∧
    InventoryService.validateInventoryAvailability c6Repo [⟨"p1", "商品A", 10⟩] =
      ⟨false, [⟨"p1", "商品A", 10, 0, InventoryService.InvalidReason.offShelf⟩]⟩ ∧
    InventoryService.reserveInventoryBatch c6Repo [⟨"p1", "商品A", 10⟩] =
      (.error (InventoryService.InventoryError.validationFailed
        [("商品A", InventoryService.InvalidReason.offShelf)]), c6Repo) := by
  decide

/-- Order item used by the C7 failing input: 1 × ¥250. -/
def c7Item : OrderItem :=
  ⟨"p3", "商品B", "SKU2", 1, ⟨250, Currency.CNY⟩, ⟨250, Currency.CNY⟩, ⟨0, Currency.CNY⟩⟩

/--
C7 (code bug): `calculateOptimalPricing` is specified (and named) to return
the coupon minimizing the total, with savings measured against the no-coupon
pricing.  The loop instead measures each candidate's savings against the
RUNNING best and overwrites the baseline, so a later coupon that is strictly
better can be discarded.  On a 1 × ¥250 cart in a first-tier city with
candidates [WELCOME20, SAVE10]: totals are ¥250 (none), ¥230 (WELCOME20),
¥225 (SAVE10); SAVE10 is optimal, yet the code keeps WELCOME20 because
SAVE10's savings relative to WELCOME20 (¥5) do not exceed the recorded ¥20.
-/
theorem C7_optimal_pricing_not_optimal :
    OrderPricingService.calculateOptimalPricing [c7Item] sampleAddress
      ["WELCOME20", "SAVE10"] =
      .ok ⟨some "WELCOME20",
           ⟨⟨250, Currency.CNY⟩, ⟨20, Currency.CNY⟩, ⟨0, Currency.CNY⟩,
            ⟨0, Currency.CNY⟩, ⟨230, Currency.CNY⟩⟩,
           ⟨20, Currency.CNY⟩⟩ ∧
    OrderPricingService.calculateOrderPricing [c7Item] sampleAddress (some "SAVE10")
      Currency.CNY =
      .ok ⟨⟨250, Currency.CNY⟩, ⟨25, Currency.CNY⟩, ⟨0, Currency.CNY⟩,
           ⟨0, Currency.CNY⟩, ⟨225, Currency.CNY⟩⟩ ∧
    (225 : ℚ) < 230 := by
  refine ⟨?_, ?_, by norm_num⟩ <;>
    norm_num [OrderPricingService.calculateOptimalPricing,
      OrderPricingService.calculateOrderPricing, OrderPricingService.calculateSubtotal,
      OrderPricingService.calculateDiscount, OrderPricingService.getDiscountRuleByCoupon,
      OrderPricingService.applyDiscountRule, OrderPricingService.calculateShippingFee,
      OrderPricingService.getShippingRuleByAddress, OrderPricingService.calculateTax,
      OrderPricingService.getTaxRuleByAddress, OrderPricingService.calculateTotalWeight,
      Money.add, Money.subtract, Money.multiply, Money.make, Money.validate,
      Money.isGreaterThan, Money.isLessThan, Money.zero, jsRound, c7Item, sampleAddress,
      List.foldlM, bind, Except.bind, pure, Except.pure, throw, throwThe,
      MonadExceptOf.throw,
      show ("WELCOME20" = "SAVE10") = False from by simp,
      show ("SAVE10" = "SAVE10") = True from by simp,
      show ("WELCOME20" = "WELCOME20") = True from by simp]

/-- Round-to-nearest-ties-even moves a value by at most one half. -/
theorem rnte_abs_le (x : ℚ) : |((rnte x : ℤ) : ℚ) - x| ≤ 1/2 := by
  unfold rnte
  have hf := Int.floor_le x
  have hf2 := Int.lt_floor_add_one x
  split_ifs with h1 h2 h3 <;> rw [abs_le] <;> push_cast <;> constructor <;> linarith

/-- `rnte` below the midpoint rounds down. -/
theorem rnte_eq_floor {x : ℚ} {n : ℤ} (hf : ⌊x⌋ = n) (hlt : x - n < 1/2) :
    rnte x = n := by
  unfold rnte
  rw [hf, if_pos hlt]

/-- `rnte` above the midpoint rounds up. -/
theorem rnte_eq_succ {x : ℚ} {n : ℤ} (hf : ⌊x⌋ = n) (hgt : 1/2 < x - n) :
    rnte x = n + 1 := by
  unfold rnte
  rw [hf, if_neg (by linarith), if_pos hgt]

/-- `rnte` at the midpoint with an odd floor rounds up (to the even
neighbour). -/
theorem rnte_eq_tie_odd {x : ℚ} {n : ℤ} (hf : ⌊x⌋ = n) (htie : x - n = 1/2)
    (hodd : ¬ (2 ∣ n)) : rnte x = n + 1 := by
  unfold rnte
  rw [hf, if_neg (by linarith), if_neg (by linarith), if_neg hodd]

/-- Unfolding `roundDouble` at a nonzero argument with a known binade. -/
theorem roundDouble_eq_of_log {q : ℚ} (hq : q ≠ 0) {e : ℤ}
    (hlog : Int.log 2 |q| = e) :
    roundDouble q = (rnte (q / 2 ^ (e - 52)) : ℚ) * 2 ^ (e - 52) := by
  unfold roundDouble
  rw [if_neg hq, hlog]

/-- Determining `Int.log 2` from an explicit binade bracketing. -/
theorem int_log_eq_of_bounds {r : ℚ} {e : ℤ} (hr : 0 < r)
    (h1 : (2 : ℚ) ^ e ≤ r) (h2 : r < (2 : ℚ) ^ (e + 1)) : Int.log 2 r = e := by
  have ha : e ≤ Int.log 2 r := by
    rw [← Int.zpow_le_iff_le_log (by norm_num) hr]
    exact_mod_cast h1
  have hb : Int.log 2 r < e + 1 := by
    rw [← Int.lt_zpow_iff_log_lt (by norm_num) hr]
    exact_mod_cast h2
  omega

/-- Binary64 rounding error bound: rounding is a relative perturbation of at
most `2^-53`. -/
theorem roundDouble_rel_err {q : ℚ} (hq : q ≠ 0) :
    |roundDouble q - q| ≤ |q| / 2 ^ 53 := by
  unfold roundDouble
  rw [if_neg hq]
  have habs : 0 < |q| := abs_pos.mpr hq
  set e : ℤ := Int.log 2 |q| - 52 with he
  have hpow : (0 : ℚ) < 2 ^ e := zpow_pos (by norm_num) e
  have hself : (2 : ℚ) ^ Int.log 2 |q| ≤ |q| := by
    have := Int.zpow_log_le_self (b := 2) (r := |q|) (by norm_num) habs
    exact_mod_cast this
  have kdist : (rnte (q / 2 ^ e) : ℚ) * 2 ^ e - q =
      ((rnte (q / 2 ^ e) : ℚ) - q / 2 ^ e) * 2 ^ e := by
    field_simp
  rw [kdist, abs_mul, abs_of_pos hpow]
  have hb := rnte_abs_le (q / 2 ^ e)
  have hstep : |(rnte (q / 2 ^ e) : ℚ) - q / 2 ^ e| * 2 ^ e ≤ (1/2) * 2 ^ e :=
    mul_le_mul_of_nonneg_right hb (le_of_lt hpow)
  refine hstep.trans ?_
  have hsplit : (1/2 : ℚ) * 2 ^ e = 2 ^ Int.log 2 |q| / 2 ^ 53 := by
    have h2 : (2 : ℚ) ≠ 0 := by norm_num
    rw [he, show (1/2 : ℚ) = 2 ^ (-1 : ℤ) from by norm_num]
    rw [← zpow_add₀ h2]
    rw [show (-1 : ℤ) + (Int.log 2 |q| - 52) = Int.log 2 |q| - 53 from by ring]
    rw [zpow_sub₀ h2]
    norm_num
  rw [hsplit]
  exact (div_le_div_iff_of_pos_right (by norm_num)).mpr hself

/-- The double nearest `0.1` is `3602879701896397 × 2^-55`. -/
theorem pointOne_eq : pointOne = 3602879701896397 / 2 ^ 55 := by
  have hlog : Int.log 2 |(1/10 : ℚ)| = -4 := by
    rw [show |(1/10 : ℚ)| = 1/10 from by norm_num]
    refine int_log_eq_of_bounds (by norm_num) ?_ ?_ <;> norm_num [zpow_neg]
  unfold pointOne
  rw [roundDouble_eq_of_log (by norm_num) hlog]
  rw [show ((-4 : ℤ) - 52) = -56 from by norm_num]
  have harg : (1/10 : ℚ) / 2 ^ (-56 : ℤ) = 72057594037927936 / 10 := by
    rw [zpow_neg]
    norm_num
  rw [harg]
  rw [rnte_eq_succ (n := 7205759403792793) (by norm_num) (by norm_num)]
  rw [zpow_neg]
  push_cast
  norm_num

/-- The double nearest `0.2` is `3602879701896397 × 2^-54`. -/
theorem pointTwo_eq : pointTwo = 3602879701896397 / 2 ^ 54 := by
  have hlog : Int.log 2 |(2/10 : ℚ)| = -3 := by
    rw [show |(2/10 : ℚ)| = 2/10 from by norm_num]
    refine int_log_eq_of_bounds (by norm_num) ?_ ?_ <;> norm_num [zpow_neg]
  unfold pointTwo
  rw [roundDouble_eq_of_log (by norm_num) hlog]
  rw [show ((-3 : ℤ) - 52) = -55 from by norm_num]
  have harg : (2/10 : ℚ) / 2 ^ (-55 : ℤ) = 72057594037927936 / 10 := by
    rw [zpow_neg]
    norm_num
  rw [harg]
  rw [rnte_eq_succ (n := 7205759403792793) (by norm_num) (by norm_num)]
  rw [zpow_neg]
  push_cast
  norm_num

/-- Rounding the raw binary64 sum of the doubles for `0.1` and `0.2`: the
exact sum sits exactly on a tie and rounds (ties to even) to
`5404319552844596 × 2^-54 = 0.30000000000000004440892098500626…`, which is
not the double nearest `0.3`. -/
theorem sumRounded_eq :
    roundDouble (pointOne + pointTwo) = 5404319552844596 / 2 ^ 54 := by
  have hsum : pointOne + pointTwo = 10808639105689191 / 2 ^ 55 := by
    rw [pointOne_eq, pointTwo_eq]
    norm_num
  rw [hsum]
  have hlog : Int.log 2 |(10808639105689191 / 2 ^ 55 : ℚ)| = -2 := by
    rw [show |(10808639105689191 / 2 ^ 55 : ℚ)| = 10808639105689191 / 2 ^ 55 from by norm_num]
    refine int_log_eq_of_bounds (by norm_num) ?_ ?_ <;> norm_num [zpow_neg]
  rw [roundDouble_eq_of_log (by norm_num) hlog]
  rw [show ((-2 : ℤ) - 52) = -54 from by norm_num]
  have harg : (10808639105689191 / 2 ^ 55 : ℚ) / 2 ^ (-54 : ℤ) = 10808639105689191 / 2 := by
    rw [zpow_neg]
    norm_num
  rw [harg]
  rw [rnte_eq_tie_odd (n := 5404319552844595) (by norm_num) (by norm_num) (by omega)]
  rw [zpow_neg]
  push_cast
  norm_num

/-- No decimal with at most two fractional digits parses back to the rounded
sum: every `m/100` is at least `3 × 10^-1 × 2^-53` away from it, beyond the
relative rounding error bound. -/
theorem noTwoDecimalNearSum :
    ∀ m : ℤ, roundDouble ((m : ℚ) / 100) ≠ 5404319552844596 / 2 ^ 54 := by
  intro m h
  by_cases hm0 : m = 0
  · subst hm0
    unfold roundDouble at h
    norm_num at h
  · have hq : ((m : ℚ) / 100) ≠ 0 := by
      simp [hm0]
    have herr := roundDouble_rel_err hq
    rw [h] at herr
    rcases le_or_lt m 0 with hneg | hpos
    · have hx : (m : ℚ) ≤ -1 := by exact_mod_cast (by omega : m ≤ -1)
      rw [abs_of_neg (by linarith : (m : ℚ) / 100 < 0),
        abs_of_pos (by norm_num; linarith :
          (0 : ℚ) < 5404319552844596 / 2 ^ 54 - (m : ℚ) / 100)] at herr
      linarith
    · rcases le_or_lt m 30 with hle | hge
      · have hx1 : (1 : ℚ) ≤ (m : ℚ) := by exact_mod_cast (by omega : (1 : ℤ) ≤ m)
        have hx2 : (m : ℚ) ≤ 30 := by exact_mod_cast hle
        rw [abs_of_pos (by linarith : (0 : ℚ) < (m : ℚ) / 100),
          abs_of_pos (by norm_num; linarith :
            (0 : ℚ) < 5404319552844596 / 2 ^ 54 - (m : ℚ) / 100)] at herr
        norm_num at herr
        linarith
      · have hx : (31 : ℚ) ≤ (m : ℚ) := by exact_mod_cast (by omega : (31 : ℤ) ≤ m)
        rw [abs_of_pos (by linarith : (0 : ℚ) < (m : ℚ) / 100),
          abs_of_neg (by norm_num; linarith :
            (5404319552844596 / 2 ^ 54 - (m : ℚ) / 100 : ℚ) < 0)] at herr
        norm_num at herr
        linarith

/--
C10: Money addition is not total on valid values: there exist two Money
values with the same currency, each non-negative with at most 2 decimal
places (here the doubles for 0.1 CNY and 0.2 CNY), whose add raises the
precision error, because the raw floating-point sum has more than 2 decimal
places and the Money constructor re-validates precision without rounding.
-/
theorem C10_money_add_precision_error :
    MoneyF.validOk ⟨pointOne, Currency.CNY⟩ ∧
    MoneyF.validOk ⟨pointTwo, Currency.CNY⟩ ∧
    MoneyF.addRaisesPrecisionError ⟨pointOne, Currency.CNY⟩ ⟨pointTwo, Currency.CNY⟩ := by
  have haddAmount : MoneyF.addAmount ⟨pointOne, Currency.CNY⟩ ⟨pointTwo, Currency.CNY⟩ =
      5404319552844596 / 2 ^ 54 := by
    show roundDouble (pointOne + pointTwo) = _
    exact sumRounded_eq
  refine ⟨⟨?_, ⟨10, ?_⟩⟩, ⟨?_, ⟨20, ?_⟩⟩, rfl, ?_, ?_⟩
  · rw [show (⟨pointOne, Currency.CNY⟩ : MoneyF).amount = pointOne from rfl, pointOne_eq]
    positivity
  · show roundDouble (((10 : ℤ) : ℚ) / 100) = pointOne
    rw [show (((10 : ℤ) : ℚ) / 100) = 1/10 from by norm_num]
    rfl
  · rw [show (⟨pointTwo, Currency.CNY⟩ : MoneyF).amount = pointTwo from rfl, pointTwo_eq]
    positivity
  · show roundDouble (((20 : ℤ) : ℚ) / 100) = pointTwo
    rw [show (((20 : ℤ) : ℚ) / 100) = 2/10 from by norm_num]
    rfl
  · rw [haddAmount]
    positivity
  · rw [haddAmount]
    rintro ⟨m, hm⟩
    exact noTwoDecimalNearSum m hm

end Eshop
